import Mathlib

/-!
Verification of the sandbox-context / evaluation-machine core of
`src/node_script.cc` (classes `WrappedContext` and `WrappedScript`).

The embedding models JavaScript objects as association lists of named
properties with an explicit object identity (`id`, used for the engine's
`StrictEquals` checks), V8 contexts as entries of an environment table
inside a `MachineState`, and the `EvalMachine` template as one Lean
function parameterized by the three axis flags, following the source's
statement order line by line.
-/

set_option autoImplicit false

namespace NodeScript

/-- A JavaScript value: primitives plus object references.  Two values are
`StrictEquals` exactly when they are syntactically equal; an object is
referred to through its numeric identity. -/
inductive Value where
  | undefined : Value
  | num : Int → Value
  | str : String → Value
  | boolV : Bool → Value
  | ref : Nat → Value
deriving DecidableEq, Repr

/-- First-match lookup in a property list (JS own-property lookup). -/
def lookupProp : List (String × Value) → String → Option Value
  | [], _ => none
  | (k, v) :: rest, p => if k = p then some v else lookupProp rest p

/-- Store a property: overwrite the first binding of the name, else append. -/
def setPropList : List (String × Value) → String → Value → List (String × Value)
  | [], p, v => [(p, v)]
  | (k, w) :: rest, p, v =>
      if k = p then (p, v) :: rest else (k, w) :: setPropList rest p v

/-- Remove all bindings of a name (JS `delete`). -/
def removePropList (l : List (String × Value)) (p : String) : List (String × Value) :=
  l.filter (fun kv => kv.1 ≠ p)

/-- The value the *last* binding of a name carries.  When a property list has
no duplicate names this coincides with `lookupProp`; it is the value an
in-order sequence of `defineProperty` calls leaves behind. -/
def lookupLast : List (String × Value) → String → Option Value
  | [], _ => none
  | (k, v) :: rest, p =>
      match lookupLast rest p with
      | some w => some w
      | none => if k = p then some v else none

/-- A JavaScript object: an identity (for `StrictEquals`), its own
properties, and the properties reachable through its prototype chain,
flattened into one list. -/
structure JsObj where
  id : Nat
  props : List (String × Value)
  protoProps : List (String × Value)
deriving DecidableEq, Repr

/-- `Object::Set`: store an own property. -/
def setProp (o : JsObj) (p : String) (v : Value) : JsObj :=
  { o with props := setPropList o.props p v }

/-- `Object::Delete`: remove an own property.  The model has no
non-configurable properties, so deletion always reports success, as JS
`delete` does on ordinary objects. -/
def deleteProp (o : JsObj) (p : String) : JsObj × Bool :=
  ({ o with props := removePropList o.props p }, true)

/-- `Object::GetRealNamedProperty`: the real (interceptor-free)
own-or-prototype lookup used by the interception callbacks. -/
def getRealNamedProperty (o : JsObj) (p : String) : Option Value :=
  match lookupProp o.props p with
  | some v => some v
  | none => lookupProp o.protoProps p

/-- Modelled from the spec: `Object::GetPropertyNames` is an external
engine primitive; spec section 4.1 specifies the enumeration boundary as
"the own enumerable property names" of the object, which in this model
are the names of its own properties. -/
def GetPropertyNames (o : JsObj) : List String :=
  o.props.map Prod.fst

/-- The body of the `CloneObject` helper (node_script.cc:240-267): walk the
source's own property names in order, copy each descriptor onto the target,
rewriting a value that `===` the source object into a reference to the
target object.  `srcId`/`tgtId` are the identities of the two objects. -/
def clonePropsOnto (srcId tgtId : Nat) :
    List (String × Value) → List (String × Value) → List (String × Value)
  | [], acc => acc
  | (k, v) :: rest, acc =>
      let v' := if v = Value.ref srcId then Value.ref tgtId else v
      clonePropsOnto srcId tgtId rest (setPropList acc k v')

/-- `CloneObject(recv, source, target)` (node_script.cc:240-267): shallow,
descriptor-preserving copy of `source`'s own properties onto `target`, with
self-references to `source` rewritten to references to `target`.  The
`recv` argument of the C++ helper is only the call receiver and carries no
semantics. -/
def CloneObject (source target : JsObj) : JsObj :=
  { target with props := clonePropsOnto source.id target.id source.props target.props }

/-- The state a `WrappedContext` exposes to its interception callbacks:
`host` is the host wrapper object the sandbox was cloned onto
(`WrappedContext::host_`), `proxyGlobal` the context's intrinsic global
(`WrappedContext::proxy_global_`).  The callbacks receive it through the
`data_wrapper_` internal-field pointer; after `~WrappedContext` that
pointer is null, modelled as `none` at the callbacks' argument. -/
structure InterceptCtx where
  host : JsObj
  proxyGlobal : JsObj
deriving DecidableEq, Repr

/-- `WrappedContext::GlobalPropertyGetter` (node_script.cc:138-151).
`none` is the empty handle ("not found", defer to default handling);
`some v` is a produced value.  A cleared interceptor pointer yields
`undefined`. -/
def GlobalPropertyGetter (ctx? : Option InterceptCtx) (p : String) : Option Value :=
  match ctx? with
  | none => some Value.undefined
  | some ctx =>
      let rv :=
        match getRealNamedProperty ctx.host p with
        | some v => some v
        | none => getRealNamedProperty ctx.proxyGlobal p
      match rv with
      | none => none
      | some v =>
          some (if v = Value.ref ctx.host.id then Value.ref ctx.proxyGlobal.id else v)

/-- `WrappedContext::GlobalPropertySetter` (node_script.cc:153-163): write
the value onto the host object and return the value; with a cleared
interceptor pointer, return `undefined` and touch nothing. -/
def GlobalPropertySetter (ctx? : Option InterceptCtx) (p : String) (v : Value) :
    Value × Option InterceptCtx :=
  match ctx? with
  | none => (Value.undefined, none)
  | some ctx => (v, some { ctx with host := setProp ctx.host p v })

/-- `WrappedContext::GlobalPropertyQuery` (node_script.cc:165-176):
`some 0` is `Integer::New(None)` (property exists, no attribute
restrictions), `none` the empty handle ("not found"). -/
def GlobalPropertyQuery (ctx? : Option InterceptCtx) (p : String) : Option Nat :=
  match ctx? with
  | none => none
  | some ctx =>
      if (getRealNamedProperty ctx.host p).isSome
          || (getRealNamedProperty ctx.proxyGlobal p).isSome then some 0
      else none

/-- `WrappedContext::GlobalPropertyDeleter` (node_script.cc:178-190):
delete from the host; if that reports failure, delete from the intrinsic
global; report the overall success.  With a cleared interceptor pointer,
report `false` and touch nothing. -/
def GlobalPropertyDeleter (ctx? : Option InterceptCtx) (p : String) :
    Bool × Option InterceptCtx :=
  match ctx? with
  | none => (false, none)
  | some ctx =>
      let hostDel := deleteProp ctx.host p
      if hostDel.2 then (true, some { ctx with host := hostDel.1 })
      else
        let proxyDel := deleteProp ctx.proxyGlobal p
        (proxyDel.2, some { ctx with host := hostDel.1, proxyGlobal := proxyDel.1 })

/-- `WrappedContext::GlobalPropertyEnumerator` (node_script.cc:193-200):
the property names of the host object; an empty array with a cleared
interceptor pointer. -/
def GlobalPropertyEnumerator (ctx? : Option InterceptCtx) : List String :=
  match ctx? with
  | none => []
  | some ctx => GetPropertyNames ctx.host

/-- The behaviour of a piece of source text: whether the engine accepts it
(`compiles`), and, as a shallow embedding of the compiled code, its effect
`fn` on the global object of whatever context is current when it runs —
`none` models an exception thrown by the executed code, `some (v, g)` a
normal completion with result `v` and updated global `g`. -/
structure Source where
  compiles : Bool
  fn : JsObj → Option (Value × JsObj)

/-- The compiled-code handle stored on a `WrappedScript`
(`script_`): context-independent, reusable across runs. -/
def ScriptFn : Type := JsObj → Option (Value × JsObj)

/-- `ObjectWrap::Unwrap<WrappedScript>(args.Holder())`: `none` when the
receiver is not a `WrappedScript`; `some none` when it is one that was
never compiled (`script_` empty); `some (some f)` when compiled. -/
def ScriptHolder : Type := Option (Option ScriptFn)

/-- One positional JavaScript argument to an `EvalMachine` entry point. -/
inductive Arg where
  | source : Source → Arg
  | obj : JsObj → Arg
  | wctx : Nat → JsObj → Arg
  | boolArg : Bool → Arg
  | other : Arg

/-- `Value::IsObject` on an argument: plain objects and `WrappedContext`
instances are objects. -/
def Arg.isObject : Arg → Bool
  | .obj _ => true
  | .wctx _ _ => true
  | _ => false

/-- `WrappedContext::InstanceOf` on an argument. -/
def Arg.isWrappedContext : Arg → Bool
  | .wctx _ _ => true
  | _ => false

/-- `Value::ToObject` where the source has already established the
argument is an object. -/
def Arg.toObjectD : Arg → JsObj
  | .obj o => o
  | .wctx _ h => h
  | _ => JsObj.mk 0 [] []

/-- The execution environment owned by a `WrappedContext` argument. -/
def Arg.wctxEnvId : Arg → Nat
  | .wctx i _ => i
  | _ => 0

/-- `args[0]->ToString()` as compilation input: a string argument carries
its source; stringifying any other value does not yield compilable code in
the modelled scenarios. -/
def Arg.toSource : Arg → Source
  | .source s => s
  | _ => ⟨false, fun _ => none⟩

/-- One V8 context as `EvalMachine` observes it: the global object script
effects apply to (for a sandboxed context this is the host-routed state,
see the interception callbacks), and whether `DetachGlobal` / `Dispose`
have been called on it. -/
structure EnvState where
  global : JsObj
  detachedGlobal : Bool
  disposed : Bool
deriving DecidableEq, Repr

/-- The engine state threaded through `EvalMachine`: the table of known
contexts, the context stack (`Context::Enter` pushes, `Context::Exit`
pops, head is the current context), the global of the ambient context the
caller is already in, and fresh-identity counters for new contexts and
objects. -/
structure MachineState where
  envs : List (Nat × EnvState)
  stack : List Nat
  ambient : JsObj
  nextEnvId : Nat
  nextObjId : Nat
deriving DecidableEq, Repr

/-- Environment-table lookup (first match). -/
def envFind : List (Nat × EnvState) → Nat → EnvState
  | [], _ => ⟨JsObj.mk 0 [] [], false, false⟩
  | (i, e) :: rest, j => if i = j then e else envFind rest j

/-- Update the first table entry of an environment. -/
def envModify : List (Nat × EnvState) → Nat → (EnvState → EnvState) → List (Nat × EnvState)
  | [], _, _ => []
  | (i, e) :: rest, j, f =>
      if i = j then (i, f e) :: rest else (i, e) :: envModify rest j f

/-- Whether an environment id is present in the table. -/
def envMem (l : List (Nat × EnvState)) (j : Nat) : Bool :=
  l.any (fun ie => ie.1 = j)

/-- The global object of the current (innermost entered) context. -/
def currentGlobal (st : MachineState) : JsObj :=
  match st.stack with
  | [] => st.ambient
  | i :: _ => (envFind st.envs i).global

/-- Replace the global object of the current context. -/
def withCurrentGlobal (st : MachineState) (g : JsObj) : MachineState :=
  match st.stack with
  | [] => { st with ambient := g }
  | i :: _ => { st with envs := envModify st.envs i (fun e => { e with global := g }) }

/-- `Context::Enter`. -/
def enterEnv (st : MachineState) (eid : Nat) : MachineState :=
  { st with stack := eid :: st.stack }

/-- `Context::Exit`. -/
def exitEnv (st : MachineState) : MachineState :=
  { st with stack := st.stack.tail }

/-- `Context::DetachGlobal`. -/
def markDetached (st : MachineState) (eid : Nat) : MachineState :=
  { st with envs := envModify st.envs eid (fun e => { e with detachedGlobal := true }) }

/-- `Persistent<Context>::Dispose`. -/
def disposeEnv (st : MachineState) (eid : Nat) : MachineState :=
  { st with envs := envModify st.envs eid (fun e => { e with disposed := true }) }

/-- The fresh-context teardown sequence `DetachGlobal(); Exit(); Dispose()`
(node_script.cc:562-565 and 584-586). -/
def freshCleanup (st : MachineState) (eid : Nat) : MachineState :=
  disposeEnv (exitEnv (markDetached st eid)) eid

/-- Which errors an `EvalMachine` run can report. -/
inductive EvalErr where
  | needsCodeArgument
  | needsContextArgument
  | compileError
  | notScriptMethod
  | notCompiled
  | runtimeError
deriving DecidableEq, Repr

/-- The three template axes of `WrappedScript::EvalMachine`. -/
inductive EvalInput where
  | compileCode
  | unwrapExternal
deriving DecidableEq, Repr

/-- Target-environment axis. -/
inductive EvalContext where
  | thisContext
  | newContext
  | userContext
deriving DecidableEq, Repr

/-- Output axis. -/
inductive EvalOutput where
  | returnResult
  | wrapExternal
deriving DecidableEq, Repr

/-- What an `EvalMachine` invocation hands back: the engine state, the
(possibly updated) compiled-code slot of the receiver, the result or
error, and — for runs that resolved a sandbox argument — the sandbox
object as it stands when the call returns. -/
structure EvalOutcome where
  state : MachineState
  holder : ScriptHolder
  result : Except EvalErr Value
  sandboxAfter : Option JsObj

/-- Lines 532-556: obtain the code to run — compile now (empty handle on
syntax error), or fetch the previously compiled handle from the receiver,
rejecting a non-`WrappedScript` receiver or a never-compiled one. -/
def obtainScript (input : EvalInput) (code : Source) (holder : ScriptHolder) :
    Except EvalErr ScriptFn :=
  match input with
  | .compileCode => if code.compiles then .ok code.fn else .error .compileError
  | .unwrapExternal =>
      match holder with
      | none => .error .notScriptMethod
      | some none => .error .notCompiled
      | some (some f) => .ok f

/-- Lines 561-568: the cleanup run when executing the script threw, before
the exception is re-raised. -/
def errorCleanup (ctxf : EvalContext) (envId? : Option Nat) (st : MachineState) :
    MachineState :=
  match ctxf, envId? with
  | .newContext, some eid => freshCleanup st eid
  | .userContext, _ => exitEnv st
  | _, _ => st

/-- Lines 581-590: the success tail — for a fresh context, copy the
context's global back onto the sandbox, then detach/exit/dispose; for a
user-supplied context, just exit it. -/
def successTail (ctxf : EvalContext) (envId? : Option Nat) (sandbox : JsObj)
    (st : MachineState) : MachineState × Option JsObj :=
  match ctxf, envId? with
  | .newContext, some eid =>
      let sandbox2 := CloneObject (envFind st.envs eid).global sandbox
      (freshCleanup st eid, some sandbox2)
  | .userContext, _ => (exitEnv st, some sandbox)
  | _, _ => (st, none)

/-- `WrappedScript::EvalMachine` (node_script.cc:458-593), in the source's
statement order.  `filename` and `displayErrors` resolution is omitted:
both are diagnostic-only and never influence control flow or state.  The
`args.This()` result of the store-for-reuse output is modelled as
`Value.undefined` (its identity plays no role here). -/
def EvalMachine (input : EvalInput) (ctxf : EvalContext) (outf : EvalOutput)
    (st0 : MachineState) (args : List Arg) (holder : ScriptHolder) : EvalOutcome :=
  if input = .compileCode ∧ args.length < 1 then
    ⟨st0, holder, .error .needsCodeArgument, none⟩
  else
    let sandboxIndex := if input = .compileCode then 1 else 0
    let sandboxArg := args.getD sandboxIndex .other
    if ctxf = .userContext ∧ sandboxArg.isWrappedContext = false then
      ⟨st0, holder, .error .needsContextArgument, none⟩
    else
      let code := (args.getD 0 .other).toSource
      -- lines 481-487: resolve the sandbox object
      let sandbox : JsObj :=
        if ctxf = .newContext then
          (if sandboxArg.isObject then sandboxArg.toObjectD
           else JsObj.mk st0.nextObjId [] [])
        else sandboxArg.toObjectD
      let st1 : MachineState :=
        if ctxf = .newContext ∧ sandboxArg.isObject = false then
          { st0 with nextObjId := st0.nextObjId + 1 }
        else st0
      -- lines 503-513: resolve the target context
      let envId? : Option Nat :=
        if ctxf = .newContext then some st1.nextEnvId
        else if ctxf = .userContext then some sandboxArg.wctxEnvId
        else none
      let st2 : MachineState :=
        if ctxf = .newContext then
          { st1 with
              envs := (st1.nextEnvId, ⟨JsObj.mk st1.nextObjId [] [], false, false⟩)
                        :: st1.envs,
              nextEnvId := st1.nextEnvId + 1,
              nextObjId := st1.nextObjId + 1 }
        else st1
      -- lines 516-519: enter the context
      let st3 : MachineState :=
        match envId? with
        | some eid => enterEnv st2 eid
        | none => st2
      -- lines 520-524: seed the fresh context's global from the sandbox
      let st4 : MachineState :=
        if ctxf = .newContext then
          match envId? with
          | some eid =>
              { st3 with
                  envs := envModify st3.envs eid
                            (fun e => { e with global := CloneObject sandbox e.global }) }
          | none => st3
        else st3
      match obtainScript input code holder with
      | .error e =>
          -- lines 537-543 and 544-556: the error is re-raised with no
          -- cleanup of the context entered above
          ⟨st4, holder, .error e, if ctxf = .thisContext then none else some sandbox⟩
      | .ok f =>
          match outf with
          | .returnResult =>
              match f (currentGlobal st4) with
              | none =>
                  ⟨errorCleanup ctxf envId? st4, holder, .error .runtimeError,
                   if ctxf = .thisContext then none else some sandbox⟩
              | some (v, g1) =>
                  let st5 := withCurrentGlobal st4 g1
                  let fin := successTail ctxf envId? sandbox st5
                  ⟨fin.1, holder, .ok v, fin.2⟩
          | .wrapExternal =>
              match holder with
              | none =>
                  ⟨st4, holder, .error .notScriptMethod,
                   if ctxf = .thisContext then none else some sandbox⟩
              | some _ =>
                  let fin := successTail ctxf envId? sandbox st4
                  ⟨fin.1, some (some f), .ok Value.undefined, fin.2⟩

/-- Errors of the `WrappedContext` constructor (node_script.cc:291-298). -/
inductive CtxNewErr where
  | wrongArgCount
  | notAnObject
deriving DecidableEq, Repr

/-- What `WrappedContext::New` produces: the host wrapper object
(`args.This()` after the sandbox was cloned onto it) and the interception
state the new context's callbacks will consult. -/
structure WCtxNewResult where
  wrapper : JsObj
  ctx : InterceptCtx

/-- `WrappedContext::New` (node_script.cc:288-306) together with the
`WrappedContext` constructor (node_script.cc:310-314): validate the
sandbox argument, clone its own properties onto `args.This()`
(`thisObj`, a fresh wrapper instance), and bind the interception layer to
that wrapper as `host_`.  `proxyGlobal` stands for the fresh context's
intrinsic global that `CreateV8Context` produces. -/
def WrappedContextNew (args : List Arg) (thisObj proxyGlobal : JsObj) :
    Except CtxNewErr WCtxNewResult :=
  if args.length < 1 then .error .wrongArgCount
  else if (args.getD 0 .other).isObject = false then .error .notAnObject
  else
    let sandbox := (args.getD 0 .other).toObjectD
    let wrapper := CloneObject sandbox thisObj
    .ok ⟨wrapper, ⟨wrapper, proxyGlobal⟩⟩

theorem lookupProp_setPropList_self (l : List (String × Value)) (p : String) (v : Value) :
    lookupProp (setPropList l p v) p = some v := by
  induction l with
  | nil => simp [setPropList, lookupProp]
  | cons kv rest ih =>
      by_cases h : kv.1 = p
      · simp [setPropList, h, lookupProp]
      · simp [setPropList, h, lookupProp, ih]

theorem lookupProp_setPropList_other (l : List (String × Value)) (p q : String)
    (v : Value) (h : q ≠ p) : lookupProp (setPropList l p v) q = lookupProp l q := by
  induction l with
  | nil => simp [setPropList, lookupProp, Ne.symm h]
  | cons kv rest ih =>
      by_cases hk : kv.1 = p
      · subst hk
        simp [setPropList, lookupProp, Ne.symm h]
      · simp [setPropList, hk, lookupProp, ih]

theorem lookupProp_clonePropsOnto (sid tid : Nat) (src acc : List (String × Value))
    (k : String) :
    lookupProp (clonePropsOnto sid tid src acc) k =
      match lookupLast src k with
      | some v => some (if v = Value.ref sid then Value.ref tid else v)
      | none => lookupProp acc k := by
  induction src generalizing acc with
  | nil => simp [clonePropsOnto, lookupLast]
  | cons kv rest ih =>
      obtain ⟨k0, v0⟩ := kv
      simp only [clonePropsOnto, lookupLast]
      rw [ih]
      cases h : lookupLast rest k with
      | some w => simp
      | none =>
          by_cases hk : k0 = k
          · subst hk
            simp [lookupProp_setPropList_self]
          · simp [hk, lookupProp_setPropList_other _ _ _ _ (Ne.symm hk)]

theorem lookupLast_eq_none_of_not_mem (l : List (String × Value)) (p : String)
    (h : p ∉ l.map Prod.fst) : lookupLast l p = none := by
  induction l with
  | nil => rfl
  | cons kv rest ih =>
      simp only [List.map_cons, List.mem_cons] at h
      push_neg at h
      simp [lookupLast, ih h.2, Ne.symm h.1]

theorem lookupLast_eq_lookupProp (l : List (String × Value)) (p : String)
    (h : (l.map Prod.fst).Nodup) : lookupLast l p = lookupProp l p := by
  induction l with
  | nil => rfl
  | cons kv rest ih =>
      simp only [List.map_cons, List.nodup_cons] at h
      by_cases hk : kv.1 = p
      · subst hk
        simp [lookupLast, lookupProp, lookupLast_eq_none_of_not_mem rest kv.1 h.1]
      · simp only [lookupLast, lookupProp, hk, if_false, ih h.2]
        cases lookupProp rest p <;> simp [hk]

/-- The shape `CloneObject` gives to target lookups: a name present on the
source is copied (with the self-reference rewrite), a name absent on the
source keeps the target's binding. -/
theorem lookupProp_CloneObject (source target : JsObj) (k : String) :
    lookupProp (CloneObject source target).props k =
      match lookupLast source.props k with
      | some v => some (if v = Value.ref source.id then Value.ref target.id else v)
      | none => lookupProp target.props k := by
  simp [CloneObject, lookupProp_clonePropsOnto]

/-- A successful compile-and-run against a fresh context: the sandbox is
cloned into the new context's bare global, the script runs there, the
final global is cloned back onto the sandbox, and the context is
detached, exited and disposed. -/
theorem EvalMachine_newContext_ok (st : MachineState) (s : Source) (sbx : JsObj)
    (holder : ScriptHolder) (res : Value) (g1 : JsObj)
    (hc : s.compiles = true)
    (hr : s.fn (CloneObject sbx (JsObj.mk st.nextObjId [] [])) = some (res, g1)) :
    EvalMachine .compileCode .newContext .returnResult st
        [.source s, .obj sbx] holder =
      ⟨⟨(st.nextEnvId, ⟨g1, true, true⟩) :: st.envs, st.stack, st.ambient,
        st.nextEnvId + 1, st.nextObjId + 1⟩,
       holder, .ok res, some (CloneObject g1 sbx)⟩ := by
  simp [EvalMachine, obtainScript, hc, hr, Arg.toSource, Arg.isObject, Arg.toObjectD,
        Arg.isWrappedContext, enterEnv, currentGlobal, envFind, envModify,
        withCurrentGlobal, successTail, freshCleanup, markDetached, exitEnv,
        disposeEnv]

/-- A fresh-context run whose executed code throws: the context is
detached, exited and disposed (its seeded global untouched) before the
exception is re-raised; nothing is copied back onto the sandbox. -/
theorem EvalMachine_newContext_runtimeErr (st : MachineState) (s : Source)
    (sbx : JsObj) (holder : ScriptHolder)
    (hc : s.compiles = true)
    (hr : s.fn (CloneObject sbx (JsObj.mk st.nextObjId [] [])) = none) :
    EvalMachine .compileCode .newContext .returnResult st
        [.source s, .obj sbx] holder =
      ⟨⟨(st.nextEnvId, ⟨CloneObject sbx (JsObj.mk st.nextObjId [] []), true, true⟩)
          :: st.envs, st.stack, st.ambient, st.nextEnvId + 1, st.nextObjId + 1⟩,
       holder, .error .runtimeError, some sbx⟩ := by
  simp [EvalMachine, obtainScript, hc, hr, Arg.toSource, Arg.isObject, Arg.toObjectD,
        Arg.isWrappedContext, enterEnv, currentGlobal, envFind, envModify,
        withCurrentGlobal, errorCleanup, freshCleanup, markDetached, exitEnv,
        disposeEnv]

/-- A fresh-context run whose source does not compile: the freshly created
context has already been entered and seeded, and the error is re-raised
with the context still entered, neither detached nor disposed. -/
theorem EvalMachine_newContext_compileErr (st : MachineState) (s : Source)
    (sbx : JsObj) (holder : ScriptHolder)
    (hc : s.compiles = false) :
    EvalMachine .compileCode .newContext .returnResult st
        [.source s, .obj sbx] holder =
      ⟨⟨(st.nextEnvId, ⟨CloneObject sbx (JsObj.mk st.nextObjId [] []), false, false⟩)
          :: st.envs, st.nextEnvId :: st.stack, st.ambient,
          st.nextEnvId + 1, st.nextObjId + 1⟩,
       holder, .error .compileError, some sbx⟩ := by
  simp [EvalMachine, obtainScript, hc, Arg.toSource, Arg.isObject, Arg.toObjectD,
        Arg.isWrappedContext, enterEnv, envModify, envFind]

/-- A successful compile-and-run against a user-supplied context: the
script's effect is applied to that context's global, the context is
exited, and everything else — including the context's aliveness — is
untouched. -/
theorem EvalMachine_userContext_ok (st : MachineState) (s : Source) (eid : Nat)
    (hostO : JsObj) (holder : ScriptHolder) (res : Value) (g1 : JsObj)
    (hc : s.compiles = true)
    (hr : s.fn ((envFind st.envs eid).global) = some (res, g1)) :
    EvalMachine .compileCode .userContext .returnResult st
        [.source s, .wctx eid hostO] holder =
      ⟨{ st with envs := envModify st.envs eid (fun e => { e with global := g1 }) },
       holder, .ok res, some hostO⟩ := by
  simp [EvalMachine, obtainScript, hc, hr, Arg.toSource, Arg.isObject, Arg.toObjectD,
        Arg.isWrappedContext, Arg.wctxEnvId, enterEnv, currentGlobal,
        withCurrentGlobal, successTail, exitEnv]

/-- A user-context run whose executed code throws: the context is exited
before the exception is re-raised and the machine state is exactly as it
was before the call — the supplied context stays alive. -/
theorem EvalMachine_userContext_runtimeErr (st : MachineState) (s : Source)
    (eid : Nat) (hostO : JsObj) (holder : ScriptHolder)
    (hc : s.compiles = true)
    (hr : s.fn ((envFind st.envs eid).global) = none) :
    EvalMachine .compileCode .userContext .returnResult st
        [.source s, .wctx eid hostO] holder =
      ⟨st, holder, .error .runtimeError, some hostO⟩ := by
  simp [EvalMachine, obtainScript, hc, hr, Arg.toSource, Arg.isObject, Arg.toObjectD,
        Arg.isWrappedContext, Arg.wctxEnvId, enterEnv, currentGlobal,
        errorCleanup, exitEnv]

/-- A user-context run whose source does not compile: the supplied context
has been entered, and the error is re-raised with it still on the
execution stack. -/
theorem EvalMachine_userContext_compileErr (st : MachineState) (s : Source)
    (eid : Nat) (hostO : JsObj) (holder : ScriptHolder)
    (hc : s.compiles = false) :
    EvalMachine .compileCode .userContext .returnResult st
        [.source s, .wctx eid hostO] holder =
      ⟨{ st with stack := eid :: st.stack }, holder, .error .compileError,
       some hostO⟩ := by
  simp [EvalMachine, obtainScript, hc, Arg.toSource, Arg.isObject, Arg.toObjectD,
        Arg.isWrappedContext, Arg.wctxEnvId, enterEnv]

/-- A precompiled run against a user-supplied context when the receiver
was never compiled: the misuse error is raised with the supplied context
still entered. -/
theorem EvalMachine_userContext_notCompiled (st : MachineState) (eid : Nat)
    (hostO : JsObj) :
    EvalMachine .unwrapExternal .userContext .returnResult st
        [.wctx eid hostO] (some none) =
      ⟨{ st with stack := eid :: st.stack }, some none, .error .notCompiled,
       some hostO⟩ := by
  simp [EvalMachine, obtainScript, Arg.toSource, Arg.isObject, Arg.toObjectD,
        Arg.isWrappedContext, Arg.wctxEnvId, enterEnv]

/-- An ambient-context compile-and-run whose source does not compile: the
error is raised with no context created, entered, exited or disposed; the
machine state is returned untouched. -/
theorem EvalMachine_thisContext_compileErr (st : MachineState) (s : Source)
    (rest : List Arg) (outf : EvalOutput) (holder : ScriptHolder)
    (hc : s.compiles = false) :
    EvalMachine .compileCode .thisContext outf st (.source s :: rest) holder =
      ⟨st, holder, .error .compileError, none⟩ := by
  simp [EvalMachine, obtainScript, hc, Arg.toSource, Arg.isObject, Arg.toObjectD,
        Arg.isWrappedContext]

/-- A fresh-context compile-and-run with the sandbox argument missing or
not an object: a brand-new empty object (identity `st.nextObjId`) serves
as the sandbox, the script runs in a context seeded from it (hence with a
bare global), and on success the final global is cloned back onto that
empty object. -/
theorem EvalMachine_newContext_defaultSandbox_ok (st : MachineState) (s : Source)
    (rest : List Arg) (holder : ScriptHolder) (res : Value) (g1 : JsObj)
    (hsand : (rest.getD 0 .other).isObject = false)
    (hc : s.compiles = true)
    (hr : s.fn (JsObj.mk (st.nextObjId + 1) [] []) = some (res, g1)) :
    EvalMachine .compileCode .newContext .returnResult st
        (.source s :: rest) holder =
      ⟨⟨(st.nextEnvId, ⟨g1, true, true⟩) :: st.envs, st.stack, st.ambient,
        st.nextEnvId + 1, st.nextObjId + 2⟩,
       holder, .ok res, some (CloneObject g1 (JsObj.mk st.nextObjId [] []))⟩ := by
  have hsand2 : (rest[0]?.getD Arg.other).isObject = false := by
    simpa [List.getD] using hsand
  simp [EvalMachine, obtainScript, hc, Arg.toSource,
        Arg.isWrappedContext, enterEnv, currentGlobal, envFind, envModify,
        withCurrentGlobal, successTail, freshCleanup, markDetached, exitEnv,
        disposeEnv, hsand2, CloneObject, clonePropsOnto, hr]

theorem lookupProp_eq_none_iff (l : List (String × Value)) (p : String) :
    lookupProp l p = none ↔ p ∉ l.map Prod.fst := by
  induction l with
  | nil => simp [lookupProp]
  | cons kv rest ih =>
      by_cases h : kv.1 = p
      · simp [lookupProp, h]
      · simp [lookupProp, h, ih, Ne.symm h]

theorem envFind_envModify (l : List (Nat × EnvState)) (i : Nat)
    (f : EnvState → EnvState) (h : envMem l i = true) :
    envFind (envModify l i f) i = f (envFind l i) := by
  induction l with
  | nil => simp [envMem] at h
  | cons kv rest ih =>
      obtain ⟨a, e⟩ := kv
      by_cases hk : a = i
      · simp [envModify, envFind, hk]
      · simp only [envMem, List.any_cons, Bool.or_eq_true, decide_eq_true_eq] at h
        rcases h with h | h
        · exact absurd h hk
        · simp [envModify, envFind, hk, ih h]

/-- C4: through the interception layer of a live sandbox context, a get of
`P` returns the real own-or-prototype property `P` of the sandbox-holding
host object `S` when present, else the real own-or-prototype property `P`
of the intrinsic proxy-global `G`; a result that is `S` itself is replaced
by `G`; and "not found" is reported exactly when `P` resolves on neither
`S` nor `G`. -/
theorem global_get_semantics (ctx : InterceptCtx) (p : String) :
    (∀ v, getRealNamedProperty ctx.host p = some v → v ≠ Value.ref ctx.host.id →
        GlobalPropertyGetter (some ctx) p = some v)
    ∧ (∀ v, getRealNamedProperty ctx.host p = none →
        getRealNamedProperty ctx.proxyGlobal p = some v → v ≠ Value.ref ctx.host.id →
        GlobalPropertyGetter (some ctx) p = some v)
    ∧ (getRealNamedProperty ctx.host p = some (Value.ref ctx.host.id) →
        GlobalPropertyGetter (some ctx) p = some (Value.ref ctx.proxyGlobal.id))
    ∧ (getRealNamedProperty ctx.host p = none →
        getRealNamedProperty ctx.proxyGlobal p = some (Value.ref ctx.host.id) →
        GlobalPropertyGetter (some ctx) p = some (Value.ref ctx.proxyGlobal.id))
    ∧ (GlobalPropertyGetter (some ctx) p = none ↔
        getRealNamedProperty ctx.host p = none
          ∧ getRealNamedProperty ctx.proxyGlobal p = none) := by
  refine ⟨?_, ?_, ?_, ?_, ?_⟩
  · intro v h hne
    simp [GlobalPropertyGetter, h, hne]
  · intro v h1 h2 hne
    simp [GlobalPropertyGetter, h1, h2, hne]
  · intro h
    simp [GlobalPropertyGetter, h]
  · intro h1 h2
    simp [GlobalPropertyGetter, h1, h2]
  · cases hh : getRealNamedProperty ctx.host p <;>
      cases hg : getRealNamedProperty ctx.proxyGlobal p <;>
      simp [GlobalPropertyGetter, hh, hg]

theorem global_get_semantics_witness :
    GlobalPropertyGetter (some ⟨⟨1, [("a", Value.num 7)], []⟩, ⟨2, [], []⟩⟩) "a"
      = some (Value.num 7) :=
  (global_get_semantics ⟨⟨1, [("a", Value.num 7)], []⟩, ⟨2, [], []⟩⟩ "a").1
    (Value.num 7) rfl (by decide)

/-- C5: through the interception layer of a live sandbox context, a set of
`P` to `V` always writes `V` onto the host object `S`, returns `V`, and
neither consults nor modifies the intrinsic proxy-global `G`: the written
host state and the returned value are the same for every `G`. -/
theorem global_set_targets_sandbox_only (ctx : InterceptCtx) (p : String)
    (v : Value) (g : JsObj) :
    GlobalPropertySetter (some ctx) p v
        = (v, some ⟨setProp ctx.host p v, ctx.proxyGlobal⟩)
    ∧ GlobalPropertySetter (some ⟨ctx.host, g⟩) p v
        = (v, some ⟨setProp ctx.host p v, g⟩) :=
  ⟨rfl, rfl⟩

/-- C6: the enumeration callback of a live sandbox context returns exactly
the own enumerable property names of the host object `S`, for every
intrinsic proxy-global `G` the same list — names of `G` are never merged
in. -/
theorem global_enumerate_sandbox_names_only (ctx : InterceptCtx) (g : JsObj) :
    GlobalPropertyEnumerator (some ctx) = GetPropertyNames ctx.host
    ∧ GlobalPropertyEnumerator (some ctx) = ctx.host.props.map Prod.fst
    ∧ GlobalPropertyEnumerator (some ⟨ctx.host, g⟩)
        = GlobalPropertyEnumerator (some ctx) :=
  ⟨rfl, rfl, rfl⟩

/-- C8: each of the five interception callbacks, invoked after the owning
context's interceptor data has been cleared to null, returns its
soft-failure value — `undefined` for get and set, "not found" for query,
`false` for delete, an empty name list for enumerate — and modifies
nothing. -/
theorem callbacks_soft_fail_after_destruction (p : String) (v : Value) :
    GlobalPropertyGetter none p = some Value.undefined
    ∧ GlobalPropertySetter none p v = (Value.undefined, none)
    ∧ GlobalPropertyQuery none p = none
    ∧ GlobalPropertyDeleter none p = (false, none)
    ∧ GlobalPropertyEnumerator none = [] :=
  ⟨rfl, rfl, rfl, rfl, rfl⟩

/-- C9: constructing a sandbox context from a sandbox object `S` clones
`S`'s own properties onto the fresh host wrapper (`args.This()`), and all
interception traffic targets that wrapper: the wrapper is a distinct
object from `S`, writes through the interception layer land on the
wrapper, and a property `S` lacks at construction time is reported absent
by the getter — so later additions to `S` stay invisible inside the
context. -/
theorem constructor_copies_sandbox (S thisObj G : JsObj)
    (hprops : thisObj.props = []) (hproto : thisObj.protoProps = [])
    (hid : thisObj.id ≠ S.id) (hnodup : (S.props.map Prod.fst).Nodup) :
    WrappedContextNew [.obj S] thisObj G
        = .ok ⟨CloneObject S thisObj, ⟨CloneObject S thisObj, G⟩⟩
    ∧ (CloneObject S thisObj).id = thisObj.id
    ∧ (CloneObject S thisObj).id ≠ S.id
    ∧ (∀ k, lookupProp (CloneObject S thisObj).props k
          = (lookupProp S.props k).map
              (fun v => if v = Value.ref S.id then Value.ref thisObj.id else v))
    ∧ (∀ p v, GlobalPropertySetter (some ⟨CloneObject S thisObj, G⟩) p v
          = (v, some ⟨setProp (CloneObject S thisObj) p v, G⟩))
    ∧ (∀ p, lookupProp S.props p = none → getRealNamedProperty G p = none →
          GlobalPropertyGetter (some ⟨CloneObject S thisObj, G⟩) p = none) := by
  refine ⟨rfl, rfl, hid, ?_, fun p v => rfl, ?_⟩
  · intro k
    rw [lookupProp_CloneObject, lookupLast_eq_lookupProp _ _ hnodup]
    cases lookupProp S.props k <;> simp [hprops, lookupProp]
  · intro p hS hG
    have habs : lookupProp (CloneObject S thisObj).props p = none := by
      rw [lookupProp_CloneObject,
          lookupLast_eq_none_of_not_mem _ _ ((lookupProp_eq_none_iff _ _).mp hS),
          hprops]
      rfl
    have hreal : getRealNamedProperty (CloneObject S thisObj) p = none := by
      simp only [CloneObject] at habs
      simp [getRealNamedProperty, CloneObject, habs, hproto, lookupProp]
    simp [GlobalPropertyGetter, hreal, hG]

theorem constructor_copies_sandbox_witness :
    WrappedContextNew [.obj ⟨3, [("a", Value.num 1)], []⟩] ⟨4, [], []⟩ ⟨5, [], []⟩
      = .ok ⟨CloneObject ⟨3, [("a", Value.num 1)], []⟩ ⟨4, [], []⟩,
             ⟨CloneObject ⟨3, [("a", Value.num 1)], []⟩ ⟨4, [], []⟩, ⟨5, [], []⟩⟩⟩ :=
  (constructor_copies_sandbox ⟨3, [("a", Value.num 1)], []⟩ ⟨4, [], []⟩ ⟨5, [], []⟩
    rfl rfl (by decide) (by decide)).1

/-- Source text the engine rejects (a syntax error). -/
def badSource : Source := ⟨false, fun _ => none⟩

/-- A compiled script whose execution throws. -/
def throwingScript : Source := ⟨true, fun _ => none⟩

/-- A machine state holding one live user context (id 5) whose global is
object 10. -/
def c1State : MachineState := ⟨[(5, ⟨⟨10, [], []⟩, false, false⟩)], [], ⟨0, [], []⟩, 6, 11⟩

/-- C1 (counterexample): a supplied-context run that fails at compilation
re-raises the error with the context still entered — the environment is
not released (not exited) before the error reaches the caller, so the
claim as stated is false. -/
theorem supplied_env_not_released_on_compile_error :
    (EvalMachine .compileCode .userContext .returnResult c1State
        [.source badSource, .wctx 5 ⟨9, [], []⟩] none).result = .error .compileError
    ∧ (EvalMachine .compileCode .userContext .returnResult c1State
        [.source badSource, .wctx 5 ⟨9, [], []⟩] none).state.stack = [5] :=
  ⟨rfl, rfl⟩

/-- C1 (amended): when the error arises from the executed code, the
environment entered for the run is released before the error is re-raised
— a fresh environment is detached, exited and disposed, a supplied one is
exited (the machine state is exactly restored); but a run failing at
compilation (or at precompiled-handle retrieval) re-raises without any
such release. -/
theorem env_released_before_runtime_error_rethrow
    (st : MachineState) (s : Source) (sbx hostO : JsObj) (eid : Nat)
    (holder : ScriptHolder) (hc : s.compiles = true) :
    (s.fn (CloneObject sbx (JsObj.mk st.nextObjId [] [])) = none →
      EvalMachine .compileCode .newContext .returnResult st
          [.source s, .obj sbx] holder =
        ⟨⟨(st.nextEnvId, ⟨CloneObject sbx (JsObj.mk st.nextObjId [] []), true, true⟩)
            :: st.envs, st.stack, st.ambient, st.nextEnvId + 1, st.nextObjId + 1⟩,
         holder, .error .runtimeError, some sbx⟩)
    ∧ (s.fn ((envFind st.envs eid).global) = none →
      EvalMachine .compileCode .userContext .returnResult st
          [.source s, .wctx eid hostO] holder =
        ⟨st, holder, .error .runtimeError, some hostO⟩) :=
  ⟨fun hr => EvalMachine_newContext_runtimeErr st s sbx holder hc hr,
   fun hr => EvalMachine_userContext_runtimeErr st s eid hostO holder hc hr⟩

theorem env_released_before_runtime_error_rethrow_witness :
    EvalMachine .compileCode .newContext .returnResult ⟨[], [], ⟨0, [], []⟩, 0, 1⟩
        [.source throwingScript, .obj ⟨9, [], []⟩] none =
      ⟨⟨[(0, ⟨⟨1, [], []⟩, true, true⟩)], [], ⟨0, [], []⟩, 1, 2⟩, none,
       .error .runtimeError, some ⟨9, [], []⟩⟩
    ∧ EvalMachine .compileCode .userContext .returnResult c1State
        [.source throwingScript, .wctx 5 ⟨9, [], []⟩] none =
      ⟨c1State, none, .error .runtimeError, some ⟨9, [], []⟩⟩ :=
  ⟨(env_released_before_runtime_error_rethrow ⟨[], [], ⟨0, [], []⟩, 0, 1⟩
      throwingScript ⟨9, [], []⟩ ⟨9, [], []⟩ 0 none rfl).1 rfl,
   (env_released_before_runtime_error_rethrow c1State
      throwingScript ⟨9, [], []⟩ ⟨9, [], []⟩ 5 none rfl).2 rfl⟩

/-- C2 (counterexample): a fresh-context compile-and-run whose source does
not compile raises the compile error only after a brand-new environment
has been created, entered and seeded — the environment is observably
entered (and still on the stack) when the error reaches the caller, so
the claim that no environment is ever entered is false. -/
theorem compile_error_enters_fresh_env :
    (EvalMachine .compileCode .newContext .returnResult ⟨[], [], ⟨0, [], []⟩, 0, 1⟩
        [.source badSource, .obj ⟨7, [], []⟩] none).result = .error .compileError
    ∧ (EvalMachine .compileCode .newContext .returnResult ⟨[], [], ⟨0, [], []⟩, 0, 1⟩
        [.source badSource, .obj ⟨7, [], []⟩] none).state.stack = [0]
    ∧ envMem (EvalMachine .compileCode .newContext .returnResult
        ⟨[], [], ⟨0, [], []⟩, 0, 1⟩
        [.source badSource, .obj ⟨7, [], []⟩] none).state.envs 0 = true :=
  ⟨rfl, rfl, rfl⟩

/-- C2 (amended): a rejected source raises the compile error before any
code executes; with the ambient target no environment is created, entered
or disposed (the machine state is returned untouched), but with the fresh
and supplied targets the environment is entered before compilation and is
left entered — neither exited nor disposed — when the error is raised. -/
theorem compile_error_side_effects
    (st : MachineState) (s : Source) (rest : List Arg) (outf : EvalOutput)
    (sbx hostO : JsObj) (eid : Nat) (holder : ScriptHolder)
    (hc : s.compiles = false) :
    EvalMachine .compileCode .thisContext outf st (.source s :: rest) holder =
      ⟨st, holder, .error .compileError, none⟩
    ∧ EvalMachine .compileCode .newContext .returnResult st
          [.source s, .obj sbx] holder =
        ⟨⟨(st.nextEnvId, ⟨CloneObject sbx (JsObj.mk st.nextObjId [] []), false, false⟩)
            :: st.envs, st.nextEnvId :: st.stack, st.ambient,
            st.nextEnvId + 1, st.nextObjId + 1⟩,
         holder, .error .compileError, some sbx⟩
    ∧ EvalMachine .compileCode .userContext .returnResult st
          [.source s, .wctx eid hostO] holder =
        ⟨{ st with stack := eid :: st.stack }, holder, .error .compileError,
         some hostO⟩ :=
  ⟨EvalMachine_thisContext_compileErr st s rest outf holder hc,
   EvalMachine_newContext_compileErr st s sbx holder hc,
   EvalMachine_userContext_compileErr st s eid hostO holder hc⟩

theorem compile_error_side_effects_witness :
    EvalMachine .compileCode .thisContext .returnResult c1State
        [.source badSource] none =
      ⟨c1State, none, .error .compileError, none⟩ :=
  (compile_error_side_effects c1State badSource [] .returnResult
    ⟨7, [], []⟩ ⟨9, [], []⟩ 5 none rfl).1

/-- C3: a fresh-context run (runInNewContext) first clones the sandbox into
the new context's bare global, runs the code there, and on success clones
the final global back onto the sandbox: any value the code assigned to a
previously-absent global property `k` is afterwards readable as property
`k` of the sandbox object. -/
theorem runInNewContext_syncs_assigned_property
    (st : MachineState) (s : Source) (sbx : JsObj) (holder : ScriptHolder)
    (k : String) (v res : Value) (g1 : JsObj)
    (hc : s.compiles = true)
    (hr : s.fn (CloneObject sbx (JsObj.mk st.nextObjId [] [])) = some (res, g1))
    (_habsent : lookupProp sbx.props k = none)
    (hassigned : lookupProp g1.props k = some v)
    (hnodup : (g1.props.map Prod.fst).Nodup)
    (hnotself : v ≠ Value.ref g1.id) :
    (EvalMachine .compileCode .newContext .returnResult st
        [.source s, .obj sbx] holder).result = .ok res
    ∧ ((EvalMachine .compileCode .newContext .returnResult st
        [.source s, .obj sbx] holder).sandboxAfter.map
          (fun sbx2 => lookupProp sbx2.props k)) = some (some v) := by
  rw [EvalMachine_newContext_ok st s sbx holder res g1 hc hr]
  refine ⟨rfl, ?_⟩
  simp [lookupProp_CloneObject, lookupLast_eq_lookupProp _ _ hnodup, hassigned,
        hnotself]

/-- A sandbox object with no properties, identity 10. -/
def c3Sandbox : JsObj := ⟨10, [], []⟩

/-- A script that assigns 42 to the previously-absent global `k`. -/
def c3Script : Source :=
  ⟨true, fun g => some (Value.undefined, setProp g "k" (Value.num 42))⟩

theorem runInNewContext_syncs_assigned_property_witness :
    ((EvalMachine .compileCode .newContext .returnResult ⟨[], [], ⟨0, [], []⟩, 0, 1⟩
        [.source c3Script, .obj c3Sandbox] none).sandboxAfter.map
          (fun sbx2 => lookupProp sbx2.props "k")) = some (some (Value.num 42)) :=
  (runInNewContext_syncs_assigned_property ⟨[], [], ⟨0, [], []⟩, 0, 1⟩
    c3Script c3Sandbox none "k" (Value.num 42) Value.undefined
    (setProp (CloneObject c3Sandbox (JsObj.mk 1 [] [])) "k" (Value.num 42))
    rfl rfl rfl rfl (by decide) (by decide)).2

/-- C7 (counterexample): a fresh-context run that fails at compilation
returns with the environment it created neither exited nor disposed, so
the claim that every fresh-environment run disposes its environment
before returning is false. -/
theorem fresh_env_not_disposed_on_compile_error :
    (EvalMachine .compileCode .newContext .returnResult ⟨[], [], ⟨0, [], []⟩, 3, 4⟩
        [.source badSource, .obj ⟨8, [("a", Value.num 1)], []⟩] none).result
      = .error .compileError
    ∧ envMem (EvalMachine .compileCode .newContext .returnResult
        ⟨[], [], ⟨0, [], []⟩, 3, 4⟩
        [.source badSource, .obj ⟨8, [("a", Value.num 1)], []⟩] none).state.envs 3
      = true
    ∧ (envFind (EvalMachine .compileCode .newContext .returnResult
        ⟨[], [], ⟨0, [], []⟩, 3, 4⟩
        [.source badSource, .obj ⟨8, [("a", Value.num 1)], []⟩] none).state.envs 3).disposed
      = false :=
  ⟨rfl, rfl, rfl⟩

/-- A script that increments the numeric global `c` (creating it at 1) and
returns 1. -/
def counterScript : Source :=
  ⟨true, fun g =>
    some (Value.num 1,
      setProp g "c"
        (match lookupProp g.props "c" with
         | some (Value.num n) => Value.num (n + 1)
         | _ => Value.num 1))⟩

/-- A machine state holding one live user context (id 3) with an empty
global (object 20). -/
def c7State : MachineState := ⟨[(3, ⟨⟨20, [], []⟩, false, false⟩)], [], ⟨0, [], []⟩, 4, 21⟩

/-- First of two runInContext calls against the same context. -/
def c7Run1 : EvalOutcome :=
  EvalMachine .compileCode .userContext .returnResult c7State
    [.source counterScript, .wctx 3 ⟨19, [], []⟩] none

/-- Second runInContext call, on the state the first one left. -/
def c7Run2 : EvalOutcome :=
  EvalMachine .compileCode .userContext .returnResult c7Run1.state
    [.source counterScript, .wctx 3 ⟨19, [], []⟩] none

/-- A script that returns the current value of global `c` (default 0) and
then sets it to 1. -/
def freshReadScript : Source :=
  ⟨true, fun g => some ((lookupProp g.props "c").getD (Value.num 0),
                        setProp g "c" (Value.num 1))⟩

/-- First of two runInNewContext calls against fresh sandboxes. -/
def c7RunA : EvalOutcome :=
  EvalMachine .compileCode .newContext .returnResult ⟨[], [], ⟨0, [], []⟩, 0, 1⟩
    [.source freshReadScript, .obj ⟨50, [], []⟩] none

/-- Second runInNewContext call, on the state the first one left, with a
fresh sandbox. -/
def c7RunB : EvalOutcome :=
  EvalMachine .compileCode .newContext .returnResult c7RunA.state
    [.source freshReadScript, .obj ⟨51, [], []⟩] none

/-- C7 (amended): a successful supplied-context run only updates the
context's global and exits, leaving the context alive, so state
accumulates across runInContext calls on the same context (two counter
runs reach 2); a fresh-context run that reaches execution — successfully
or throwing — detaches, exits and disposes its environment before
returning, and two runInNewContext calls against fresh sandboxes share no
state (both read 0); but a fresh-context run failing at compilation or at
precompiled-handle retrieval returns without disposing the environment it
created. -/
theorem env_persistence_and_disposal
    (st : MachineState) (s : Source) (eid : Nat) (hostO sbx : JsObj)
    (holder : ScriptHolder) (res : Value) (g1 : JsObj)
    (hc : s.compiles = true) :
    (s.fn ((envFind st.envs eid).global) = some (res, g1) →
      EvalMachine .compileCode .userContext .returnResult st
          [.source s, .wctx eid hostO] holder =
        ⟨{ st with envs := envModify st.envs eid (fun e => { e with global := g1 }) },
         holder, .ok res, some hostO⟩)
    ∧ (envMem st.envs eid = true →
        (envFind (envModify st.envs eid (fun e => { e with global := g1 })) eid).disposed
            = (envFind st.envs eid).disposed
        ∧ (envFind (envModify st.envs eid (fun e => { e with global := g1 })) eid).global
            = g1)
    ∧ (s.fn (CloneObject sbx (JsObj.mk st.nextObjId [] [])) = some (res, g1) →
        (EvalMachine .compileCode .newContext .returnResult st
            [.source s, .obj sbx] holder).state.stack = st.stack
        ∧ (envFind (EvalMachine .compileCode .newContext .returnResult st
            [.source s, .obj sbx] holder).state.envs st.nextEnvId).disposed = true)
    ∧ (s.fn (CloneObject sbx (JsObj.mk st.nextObjId [] [])) = none →
        (envFind (EvalMachine .compileCode .newContext .returnResult st
            [.source s, .obj sbx] holder).state.envs st.nextEnvId).disposed = true)
    ∧ ((envFind c7Run2.state.envs 3).global.props = [("c", Value.num 2)]
        ∧ (envFind c7Run2.state.envs 3).disposed = false
        ∧ c7Run2.state.stack = [])
    ∧ (c7RunA.result = .ok (Value.num 0) ∧ c7RunB.result = .ok (Value.num 0)
        ∧ (envFind c7RunB.state.envs 0).disposed = true
        ∧ (envFind c7RunB.state.envs 1).disposed = true) := by
  refine ⟨fun hr => EvalMachine_userContext_ok st s eid hostO holder res g1 hc hr,
          fun hm => ?_, fun hr => ?_, fun hr => ?_, ⟨rfl, rfl, rfl⟩, ⟨rfl, rfl, rfl, rfl⟩⟩
  · rw [envFind_envModify _ _ _ hm]
    exact ⟨rfl, rfl⟩
  · rw [EvalMachine_newContext_ok st s sbx holder res g1 hc hr]
    exact ⟨rfl, by simp [envFind]⟩
  · rw [EvalMachine_newContext_runtimeErr st s sbx holder hc hr]
    simp [envFind]

theorem env_persistence_and_disposal_witness :
    EvalMachine .compileCode .userContext .returnResult c7State
        [.source counterScript, .wctx 3 ⟨19, [], []⟩] none =
      ⟨{ c7State with
          envs := envModify c7State.envs 3
            (fun e => { e with global := setProp ⟨20, [], []⟩ "c" (Value.num 1) }) },
       none, .ok (Value.num 1), some ⟨19, [], []⟩⟩ :=
  (env_persistence_and_disposal c7State counterScript 3 ⟨19, [], []⟩ ⟨50, [], []⟩
    none (Value.num 1) (setProp ⟨20, [], []⟩ "c" (Value.num 1)) rfl).1 rfl

/-- C10: a fresh-context entry point called with the sandbox argument
missing or not an object raises no error: a brand-new empty object (fresh
identity `st.nextObjId`) serves as the sandbox, the run proceeds in a
context seeded from it, and on success the final global is cloned back
onto that empty object. -/
theorem missing_sandbox_defaults_to_empty
    (st : MachineState) (s : Source) (rest : List Arg) (holder : ScriptHolder)
    (res : Value) (g1 : JsObj)
    (hsand : (rest.getD 0 .other).isObject = false)
    (hc : s.compiles = true)
    (hr : s.fn (JsObj.mk (st.nextObjId + 1) [] []) = some (res, g1)) :
    (EvalMachine .compileCode .newContext .returnResult st
        (.source s :: rest) holder).result = .ok res
    ∧ (EvalMachine .compileCode .newContext .returnResult st
        (.source s :: rest) holder).sandboxAfter
      = some (CloneObject g1 (JsObj.mk st.nextObjId [] [])) := by
  rw [EvalMachine_newContext_defaultSandbox_ok st s rest holder res g1 hsand hc hr]
  exact ⟨rfl, rfl⟩

theorem missing_sandbox_defaults_to_empty_witness :
    (EvalMachine .compileCode .newContext .returnResult ⟨[], [], ⟨0, [], []⟩, 0, 1⟩
        [.source ⟨true, fun g => some (Value.num 5, g)⟩] none).result
      = .ok (Value.num 5) :=
  (missing_sandbox_defaults_to_empty ⟨[], [], ⟨0, [], []⟩, 0, 1⟩
    ⟨true, fun g => some (Value.num 5, g)⟩ [] none (Value.num 5)
    (JsObj.mk 2 [] []) rfl rfl rfl).1
